import Mathlib

/-!
Verification of the GiveWayBot startup/shutdown orchestration.

Shallow embedding of the three source files:
  * `src/main.ts` — shutdown coordinator (`onShutdown`), polling and
    webhook startup paths, top-level try/catch;
  * `src/bot/features/start.ts` — the `/start` command handler;
  * `src/bot/helpers/logging.ts` — `getUpdateInfo` and `logHandle`.

Effectful code is modelled as explicit event traces; external calls that
can fail are driven by an environment record saying which call fails.
-/

namespace GiveWayBot

/-! ## Shutdown coordinator (`onShutdown`, src/main.ts lines 15-25)

`onShutdown` closes over a boolean `isShuttingDown`; `handleShutdown`
returns early when the flag is set, otherwise sets it, logs, and awaits
the cleanup action.  We track the flag and the number of times the
cleanup action has been invoked. -/

/-- The two termination signals `onShutdown` registers for. -/
inductive Signal
  | SIGINT
  | SIGTERM
deriving DecidableEq, Repr

/-- State captured by the `onShutdown` closure: the `isShuttingDown` flag,
plus an instrumentation counter of cleanup invocations. -/
structure ShutdownState where
  isShuttingDown : Bool
  cleanupRuns : Nat
deriving DecidableEq, Repr

/-- State of the closure right after `onShutdown` is called. -/
def initialShutdownState : ShutdownState :=
  { isShuttingDown := false, cleanupRuns := 0 }

/-- One delivery of SIGINT or SIGTERM: the body of `handleShutdown` in
`src/main.ts`.  If `isShuttingDown` it returns at once; otherwise it sets
the flag and runs the cleanup action. -/
def handleShutdown (s : ShutdownState) : ShutdownState :=
  if s.isShuttingDown then s
  else { isShuttingDown := true, cleanupRuns := s.cleanupRuns + 1 }

/-- Deliver a sequence of signals, in order.  Both signals are wired to
the same `handleShutdown` closure, so the handled signal's identity does
not influence the state transition. -/
def deliverSignals (s : ShutdownState) : List Signal → ShutdownState
  | [] => s
  | _ :: rest => deliverSignals (handleShutdown s) rest

/-- Once the latch has fired, further deliveries leave the state fixed. -/
theorem deliverSignals_fixed (rest : List Signal) :
    deliverSignals { isShuttingDown := true, cleanupRuns := 1 } rest =
      { isShuttingDown := true, cleanupRuns := 1 } := by
  induction rest with
  | nil => rfl
  | cons s rest ih =>
      simp [deliverSignals, handleShutdown, ih]

/-- Claim C1: for every sequence of SIGINT/SIGTERM deliveries, the cleanup
action runs exactly once, exactly on the first delivery, and every
subsequent delivery leaves the state unchanged. -/
theorem cleanup_exactly_once_on_first_signal (first : Signal) (rest : List Signal) :
    handleShutdown initialShutdownState =
      { isShuttingDown := true, cleanupRuns := 1 } ∧
    deliverSignals initialShutdownState (first :: rest) =
      { isShuttingDown := true, cleanupRuns := 1 } ∧
    handleShutdown { isShuttingDown := true, cleanupRuns := 1 } =
      { isShuttingDown := true, cleanupRuns := 1 } := by
  refine ⟨rfl, ?_, rfl⟩
  show deliverSignals (handleShutdown initialShutdownState) rest = _
  have h : handleShutdown initialShutdownState =
      { isShuttingDown := true, cleanupRuns := 1 } := rfl
  rw [h, deliverSignals_fixed]

/-! ## Configuration (src/config.ts, read via `config` in src/main.ts)

The configuration keys `main.ts` actually reads.  They are read once at
startup and never mutated. -/

/-- Configuration values read by `src/main.ts`. -/
structure Config where
  BOT_TOKEN : String
  BOT_MODE : String
  BOT_ALLOWED_UPDATES : List String
  BOT_SERVER_HOST : String
  BOT_SERVER_PORT : Nat
  BOT_WEBHOOK : String
  BOT_WEBHOOK_SECRET : String
deriving DecidableEq, Repr

/-- The `AddressInfo` a Node listener reports once bound
(`node:net`, used at src/main.ts line 57). -/
structure AddressInfo where
  address : String
  family : String
  port : Nat
deriving DecidableEq, Repr

/-- The URL string built for the `Server started` log at
src/main.ts lines 84-87: brackets around the address exactly when the
family is `IPv6`. -/
def serverUrl (info : AddressInfo) : String :=
  if info.family = "IPv6" then
    "http://[" ++ info.address ++ "]:" ++ toString info.port
  else
    "http://" ++ info.address ++ ":" ++ toString info.port

/-! ## Event-trace model of the two startup paths

Every externally visible action of `src/main.ts` becomes an event.
External calls that can reject are driven by an `Env` record saying
which call fails; a failed call still appears in the trace (the call was
made) but nothing after it runs, matching `await`/`throw` semantics. -/

/-- The cleanup action passed to `onShutdown` on each path. -/
inductive Cleanup
  | stopBot
  | stopServer
deriving DecidableEq, Repr

/-- Externally visible actions of `src/main.ts`, in program order. -/
inductive Ev
  | createBotE (token : String)
  | registerShutdown (c : Cleanup)
  | initE
  | bindE (host : String) (port : Nat)
  | logServerStarted (url : String)
  | setWebhookE (url : String) (allowed : List String) (secret : String)
  | logWebhookSet (url : String)
  | startE (allowed : List String)
  | logBotRunning (username : String)
  | botStopE
  | serverCloseE
  | logErrorE
deriving DecidableEq, Repr

/-- What each registered cleanup action does when the shutdown latch
fires: the polling path's closure awaits `bot.stop()`
(src/main.ts lines 34-36), the webhook path's awaits `stopServer()`
(lines 76-78). -/
def cleanupEffects : Cleanup → List Ev
  | Cleanup.stopBot => [Ev.botStopE]
  | Cleanup.stopServer => [Ev.serverCloseE]

/-- Which of the awaited external calls reject, and what the successful
ones return. -/
structure Env where
  initFails : Bool
  bindFails : Bool
  setWebhookFails : Bool
  startFails : Bool
  boundInfo : AddressInfo
  botUsername : String
deriving DecidableEq, Repr

/-- Trace of `startPolling` (src/main.ts lines 31-45) together with a
success flag: create the bot, register the shutdown coordinator with a
cleanup that stops the bot, then `bot.start` with the configured
allowed-update list; on success the `onStart` callback logs the bot's
username. -/
def startPollingRun (cfg : Config) (env : Env) : List Ev × Bool :=
  let pre := [Ev.createBotE cfg.BOT_TOKEN,
              Ev.registerShutdown Cleanup.stopBot,
              Ev.startE cfg.BOT_ALLOWED_UPDATES]
  if env.startFails then (pre, false)
  else (pre ++ [Ev.logBotRunning env.botUsername], true)

/-- Trace of `startWebhook` (src/main.ts lines 51-98) together with a
success flag: create the bot and server adapter, register the shutdown
coordinator with a cleanup that closes the listener, `await bot.init()`,
bind the listener, log the bound URL, `setWebhook` with the configured
URL, allowed updates and secret, then log success.  A rejecting `await`
aborts the rest. -/
def startWebhookRun (cfg : Config) (env : Env) : List Ev × Bool :=
  let e1 := [Ev.createBotE cfg.BOT_TOKEN,
             Ev.registerShutdown Cleanup.stopServer,
             Ev.initE]
  if env.initFails then (e1, false)
  else
    let e2 := e1 ++ [Ev.bindE cfg.BOT_SERVER_HOST cfg.BOT_SERVER_PORT]
    if env.bindFails then (e2, false)
    else
      let e3 := e2 ++ [Ev.logServerStarted (serverUrl env.boundInfo),
                       Ev.setWebhookE cfg.BOT_WEBHOOK cfg.BOT_ALLOWED_UPDATES
                         cfg.BOT_WEBHOOK_SECRET]
      if env.setWebhookFails then (e3, false)
      else (e3 ++ [Ev.logWebhookSet cfg.BOT_WEBHOOK], true)

/-- The top-level entry point (src/main.ts lines 100-109): dispatch on
`config.BOT_MODE`; any error escaping either path is caught once, logged
(`logger.error`), and the process exits with code 1; otherwise the
process finishes with exit code 0.  A mode that is neither `webhook` nor
`polling` matches no branch and does nothing. -/
def mainRun (cfg : Config) (env : Env) : List Ev × Nat :=
  if cfg.BOT_MODE = "webhook" then
    let r := startWebhookRun cfg env
    if r.2 then (r.1, 0) else (r.1 ++ [Ev.logErrorE], 1)
  else if cfg.BOT_MODE = "polling" then
    let r := startPollingRun cfg env
    if r.2 then (r.1, 0) else (r.1 ++ [Ev.logErrorE], 1)
  else ([], 0)

/-! ## Concrete configurations used by the witnesses -/

/-- A concrete webhook-mode configuration. -/
def cfgW : Config :=
  { BOT_TOKEN := "token", BOT_MODE := "webhook",
    BOT_ALLOWED_UPDATES := ["message", "callback_query"],
    BOT_SERVER_HOST := "0.0.0.0", BOT_SERVER_PORT := 80,
    BOT_WEBHOOK := "https://example.com/hook", BOT_WEBHOOK_SECRET := "s3cret" }

/-- A concrete polling-mode configuration. -/
def cfgP : Config :=
  { cfgW with BOT_MODE := "polling" }

/-- A concrete configuration with an unrecognized mode. -/
def cfgU : Config :=
  { cfgW with BOT_MODE := "other" }

/-- An environment in which every external call succeeds. -/
def envOk : Env :=
  { initFails := false, bindFails := false, setWebhookFails := false,
    startFails := false,
    boundInfo := { address := "127.0.0.1", family := "IPv4", port := 3000 },
    botUsername := "givewaybot" }

/-- Claim C2: in webhook mode the trace is, in order, bot init, listener
bind, webhook registration with the configured URL, filter and secret;
a failing step stops everything after it, the error is logged once and
the exit code is 1; if nothing fails the exit code is 0. -/
theorem webhook_startup_order_and_failfast (cfg : Config) (env : Env)
    (h : cfg.BOT_MODE = "webhook") :
    (env.initFails = true →
      mainRun cfg env =
        ([Ev.createBotE cfg.BOT_TOKEN, Ev.registerShutdown Cleanup.stopServer,
          Ev.initE, Ev.logErrorE], 1)) ∧
    (env.initFails = false → env.bindFails = true →
      mainRun cfg env =
        ([Ev.createBotE cfg.BOT_TOKEN, Ev.registerShutdown Cleanup.stopServer,
          Ev.initE, Ev.bindE cfg.BOT_SERVER_HOST cfg.BOT_SERVER_PORT,
          Ev.logErrorE], 1)) ∧
    (env.initFails = false → env.bindFails = false → env.setWebhookFails = true →
      mainRun cfg env =
        ([Ev.createBotE cfg.BOT_TOKEN, Ev.registerShutdown Cleanup.stopServer,
          Ev.initE, Ev.bindE cfg.BOT_SERVER_HOST cfg.BOT_SERVER_PORT,
          Ev.logServerStarted (serverUrl env.boundInfo),
          Ev.setWebhookE cfg.BOT_WEBHOOK cfg.BOT_ALLOWED_UPDATES
            cfg.BOT_WEBHOOK_SECRET,
          Ev.logErrorE], 1)) ∧
    (env.initFails = false → env.bindFails = false → env.setWebhookFails = false →
      mainRun cfg env =
        ([Ev.createBotE cfg.BOT_TOKEN, Ev.registerShutdown Cleanup.stopServer,
          Ev.initE, Ev.bindE cfg.BOT_SERVER_HOST cfg.BOT_SERVER_PORT,
          Ev.logServerStarted (serverUrl env.boundInfo),
          Ev.setWebhookE cfg.BOT_WEBHOOK cfg.BOT_ALLOWED_UPDATES
            cfg.BOT_WEBHOOK_SECRET,
          Ev.logWebhookSet cfg.BOT_WEBHOOK], 0)) := by
  refine ⟨fun h1 => ?_, fun h1 h2 => ?_, fun h1 h2 h3 => ?_, fun h1 h2 h3 => ?_⟩
  · simp [mainRun, startWebhookRun, h, h1]
  · simp [mainRun, startWebhookRun, h, h1, h2]
  · simp [mainRun, startWebhookRun, h, h1, h2, h3]
  · simp [mainRun, startWebhookRun, h, h1, h2, h3]

/-- Witness for C2 at the concrete webhook configuration with no
failures. -/
theorem webhook_startup_order_and_failfast_witness :
    cfgW.BOT_MODE = "webhook" ∧
    mainRun cfgW envOk =
      ([Ev.createBotE "token", Ev.registerShutdown Cleanup.stopServer,
        Ev.initE, Ev.bindE "0.0.0.0" 80,
        Ev.logServerStarted "http://127.0.0.1:3000",
        Ev.setWebhookE "https://example.com/hook" ["message", "callback_query"]
          "s3cret",
        Ev.logWebhookSet "https://example.com/hook"], 0) :=
  ⟨rfl, (webhook_startup_order_and_failfast cfgW envOk rfl).2.2.2 rfl rfl rfl⟩

/-- Claim C3: in polling mode `bot.start` is invoked with exactly the
configured allowed-update list, no HTTP listener is ever bound, and the
cleanup registered with the shutdown coordinator stops the bot. -/
theorem polling_start_args_no_listener (cfg : Config) (env : Env)
    (h : cfg.BOT_MODE = "polling") :
    (mainRun cfg env).1[2]? = some (Ev.startE cfg.BOT_ALLOWED_UPDATES) ∧
    (∀ host port, Ev.bindE host port ∉ (mainRun cfg env).1) ∧
    (mainRun cfg env).1[1]? = some (Ev.registerShutdown Cleanup.stopBot) ∧
    cleanupEffects Cleanup.stopBot = [Ev.botStopE] := by
  cases hs : env.startFails <;>
    simp [mainRun, startPollingRun, h, hs, cleanupEffects]

/-- Witness for C3 at the concrete polling configuration. -/
theorem polling_start_args_no_listener_witness :
    cfgP.BOT_MODE = "polling" ∧
    (mainRun cfgP envOk).1[2]? =
      some (Ev.startE ["message", "callback_query"]) :=
  ⟨rfl, (polling_start_args_no_listener cfgP envOk rfl).1⟩

/-- Claim C9: on both paths the shutdown coordinator is registered
strictly before the blocking calls — before `bot.start` in polling mode,
and before `bot.init` and any listener bind in webhook mode. -/
theorem shutdown_registered_before_blocking (cfg : Config) (env : Env) :
    (cfg.BOT_MODE = "polling" →
      (mainRun cfg env).1[1]? = some (Ev.registerShutdown Cleanup.stopBot) ∧
      (mainRun cfg env).1[2]? = some (Ev.startE cfg.BOT_ALLOWED_UPDATES)) ∧
    (cfg.BOT_MODE = "webhook" →
      (mainRun cfg env).1[1]? = some (Ev.registerShutdown Cleanup.stopServer) ∧
      (mainRun cfg env).1[2]? = some Ev.initE ∧
      ∀ (k : Nat) (host : String) (port : Nat),
        (mainRun cfg env).1[k]? = some (Ev.bindE host port) → 1 < k) := by
  constructor
  · intro h
    cases hs : env.startFails <;>
      simp [mainRun, startPollingRun, h, hs]
  · intro h
    refine ⟨?_, ?_, ?_⟩
    · cases hi : env.initFails <;> cases hb : env.bindFails <;>
        cases hw : env.setWebhookFails <;>
        simp [mainRun, startWebhookRun, h, hi, hb, hw]
    · cases hi : env.initFails <;> cases hb : env.bindFails <;>
        cases hw : env.setWebhookFails <;>
        simp [mainRun, startWebhookRun, h, hi, hb, hw]
    · intro k host port hk
      rcases k with _ | _ | k
      · exfalso
        cases hi : env.initFails <;> cases hb : env.bindFails <;>
          cases hw : env.setWebhookFails <;>
          simp [mainRun, startWebhookRun, h, hi, hb, hw] at hk
      · exfalso
        cases hi : env.initFails <;> cases hb : env.bindFails <;>
          cases hw : env.setWebhookFails <;>
          simp [mainRun, startWebhookRun, h, hi, hb, hw] at hk
      · omega

/-- Witness for C9 at concrete configurations of both modes. -/
theorem shutdown_registered_before_blocking_witness :
    (mainRun cfgP envOk).1[1]? = some (Ev.registerShutdown Cleanup.stopBot) ∧
    (mainRun cfgW envOk).1[1]? = some (Ev.registerShutdown Cleanup.stopServer) :=
  ⟨((shutdown_registered_before_blocking cfgP envOk).1 rfl).1,
   ((shutdown_registered_before_blocking cfgW envOk).2 rfl).1⟩

/-- Claim C10: a mode other than `webhook` and `polling` matches neither
branch of the top-level dispatch, so nothing runs and the process
finishes with exit code 0. -/
theorem unknown_mode_noop (cfg : Config) (env : Env)
    (h1 : cfg.BOT_MODE ≠ "webhook") (h2 : cfg.BOT_MODE ≠ "polling") :
    mainRun cfg env = ([], 0) := by
  simp [mainRun, h1, h2]

/-- Witness for C10 at the concrete unrecognized-mode configuration. -/
theorem unknown_mode_noop_witness :
    mainRun cfgU envOk = ([], 0) :=
  unknown_mode_noop cfgU envOk (by decide) (by decide)

/-- Claim C4: the logged webhook URL brackets the address exactly for the
`IPv6` family and uses it directly for every other family, with the two
concrete bindings from the spec evaluating to the stated strings. -/
theorem server_started_url (info : AddressInfo) :
    (info.family = "IPv6" →
      serverUrl info = "http://[" ++ info.address ++ "]:" ++ toString info.port) ∧
    (info.family ≠ "IPv6" →
      serverUrl info = "http://" ++ info.address ++ ":" ++ toString info.port) ∧
    serverUrl { address := "127.0.0.1", family := "IPv4", port := 3000 } =
      "http://127.0.0.1:3000" ∧
    serverUrl { address := "::1", family := "IPv6", port := 3000 } =
      "http://[::1]:3000" := by
  refine ⟨fun h6 => ?_, fun h6 => ?_, by decide, by decide⟩
  · simp [serverUrl, h6]
  · simp [serverUrl, h6]

/-- Witness for C4 at the IPv6 example binding. -/
theorem server_started_url_witness :
    serverUrl { address := "::1", family := "IPv6", port := 3000 } =
      "http://[" ++ "::1" ++ "]:" ++ toString 3000 :=
  (server_started_url { address := "::1", family := "IPv6", port := 3000 }).1 rfl

/-! ## `/start` command handler (src/bot/features/start.ts)

The composer is narrowed to private chats with `chatType("private")`,
then `feature.command("start", ...)` replies with the localized
`start.register` template, interpolating `ctx.from.username || ""`. -/

/-- JavaScript `a || ""` for `a : string | undefined`: an absent or empty
string is falsy, so it yields the right operand. -/
def jsOrEmpty : Option String → String
  | some s => if s = "" then "" else s
  | none => ""

/-- A reply produced through the localization layer: the template key and
the `name` interpolation argument passed to `ctx.t`. -/
structure Reply where
  key : String
  name : String
deriving DecidableEq, Repr

/-- The body of the `/start` handler (src/bot/features/start.ts
lines 9-11): reply with the `start.register` template, `name` set to the
sender's username or the empty string. -/
def startCommandReply (username : Option String) : Reply :=
  { key := "start.register", name := jsOrEmpty username }

/-- The `welcomeFeature` composer: the handler fires only for the
`/start` command inside a private chat; anything else falls through. -/
def welcomeFeature (chatType : String) (command : Option String)
    (username : Option String) : Option Reply :=
  if chatType = "private" then
    if command = some "start" then some (startCommandReply username)
    else none
  else none

/-- Claim C5: a `/start` command in a private chat replies with the
`start.register` template, `name` being the sender's username when
present and the empty string when absent. -/
theorem start_command_reply_name (s : String) :
    welcomeFeature "private" (some "start") (some s) =
      some { key := "start.register", name := s } ∧
    welcomeFeature "private" (some "start") none =
      some { key := "start.register", name := "" } := by
  constructor
  · by_cases hs : s = "" <;>
      simp [welcomeFeature, startCommandReply, jsOrEmpty, hs]
  · rfl

/-! ## Logging helper (src/bot/helpers/logging.ts) -/

/-- An incoming Telegram update as `getUpdateInfo` sees it: the
`update_id` field plus the remaining payload fields, abstracted as one
value. -/
structure Update where
  update_id : Nat
  rest : String
deriving DecidableEq, Repr

/-- `getUpdateInfo` (src/bot/helpers/logging.ts lines 5-10): destructure
`update_id` away and return the remaining payload. -/
def getUpdateInfo (u : Update) : String :=
  u.rest

/-- The structured event `logHandle`'s middleware passes to
`ctx.logger.info`: a `msg` field, and the stripped update payload when
present. -/
structure LogEvent where
  msg : String
  update : Option String
deriving DecidableEq, Repr

/-- JavaScript `s.startsWith(p)`, computed on the character list so that
it evaluates inside the kernel. -/
def strStartsWith (s p : String) : Bool :=
  p.data.isPrefixOf s.data

/-- The log event emitted by the middleware returned by `logHandle id`
(src/bot/helpers/logging.ts lines 13-17): `msg` interpolates the id, and
the stripped update is spread in exactly when the id starts with
`unhandled`. -/
def logHandleEvent (id : String) (u : Update) : LogEvent :=
  { msg := "Handle \"" ++ id ++ "\"",
    update := if strStartsWith id "unhandled" then some (getUpdateInfo u) else none }

/-- Claim C6: the middleware's log event has a `msg` containing the id,
and carries the update payload with `update_id` stripped exactly when the
id starts with `unhandled`; concretely, `unhandled-update` includes it
and `command-start` does not. -/
theorem logHandle_event_shape (id : String) (u : Update) :
    (∃ pre post, (logHandleEvent id u).msg = pre ++ id ++ post) ∧
    ((logHandleEvent id u).update = some (getUpdateInfo u) ↔
      strStartsWith id "unhandled" = true) ∧
    (logHandleEvent "unhandled-update" u).update = some (getUpdateInfo u) ∧
    (logHandleEvent "command-start" u).update = none := by
  refine ⟨⟨"Handle \"", "\"", rfl⟩, ?_, ?_, ?_⟩
  · cases hp : strStartsWith id "unhandled" <;> simp [logHandleEvent, hp]
  · have hp : strStartsWith "unhandled-update" "unhandled" = true := by decide
    simp [logHandleEvent, hp]
  · have hp : strStartsWith "command-start" "unhandled" = false := by decide
    simp [logHandleEvent, hp]

/-! ### Middleware control flow -/

/-- What a run of the `logHandle` middleware does, step by step. -/
inductive MWEv
  | logEv (e : LogEvent)
  | nextEv
deriving DecidableEq, Repr

/-- Whether a middleware step is the call to `next`. -/
def isNextEv : MWEv → Bool
  | MWEv.nextEv => true
  | MWEv.logEv _ => false

/-- The run of the middleware returned by `logHandle id` on a context
carrying update `u` (src/bot/helpers/logging.ts lines 13-20): emit the
log event, then return `next()`. -/
def logHandleRun (id : String) (u : Update) : List MWEv :=
  [MWEv.logEv (logHandleEvent id u), MWEv.nextEv]

/-- Claim C7: every run of the `logHandle` middleware calls `next`
exactly once, after emitting its log event — it never short-circuits. -/
theorem logHandle_calls_next_once (id : String) (u : Update) :
    (logHandleRun id u).countP (fun e => isNextEv e) = 1 ∧
    (logHandleRun id u)[0]? = some (MWEv.logEv (logHandleEvent id u)) ∧
    (logHandleRun id u)[1]? = some MWEv.nextEv ∧
    (logHandleRun id u).length = 2 := by
  refine ⟨?_, rfl, rfl, rfl⟩
  simp [logHandleRun, isNextEv, List.countP_cons]

/-! ## `stopServer` in the webhook path (src/main.ts lines 67-74)

`serverHandle` starts out `undefined` and is assigned only inside
`startServer`.  `stopServer` closes the handle when it exists and
resolves immediately otherwise; either way the promise resolves and the
`serverHandle` variable itself is not reassigned. -/

/-- The `stopServer` closure: given the current `serverHandle`, returns
the events it performs, the `serverHandle` value afterwards, and whether
the returned promise resolves. -/
def stopServer (serverHandle : Option Nat) : List Ev × Option Nat × Bool :=
  match serverHandle with
  | some h => ([Ev.serverCloseE], some h, true)
  | none => ([], none, true)

/-- Claim C8: when the listener was never started (`serverHandle`
absent), `stopServer` resolves successfully, performs no operation and
leaves the state unchanged. -/
theorem stopServer_noop_when_absent (serverHandle : Option Nat)
    (h : serverHandle = none) :
    stopServer serverHandle = ([], serverHandle, true) := by
  subst h
  rfl

/-- Witness for C8 at the absent handle. -/
theorem stopServer_noop_when_absent_witness :
    stopServer (none : Option Nat) = ([], none, true) :=
  stopServer_noop_when_absent none rfl

end GiveWayBot
